import Mathlib

/-!
Shallow embedding of the container-orchestration builder of
jpmorganchase/quorum-tools (Go), together with proofs checking the
natural-language specification against the code.

The embedded functions are translated from the Go source:
  - `doWorkInParallel`, `QuorumBuilder.startContainers`,
    `QuorumBuilder.Build`, `QuorumBuilder.pullImage`,
    `QuorumBuilder.Destroy` (the primary builder file),
  - `TesseraTxManager.Start`, `TesseraTxManager.Stop`,
    `TesseraTxManager.GenerateKeys` (docker/txmanager.go).

Goroutine nondeterminism is modelled explicitly: a parallel stage's
workers each produce one outcome, and the order in which the collection
loop receives those outcomes is an arbitrary permutation of the
per-worker results, universally quantified in the theorems.
-/

/-! ## doWorkInParallel

Go source (primary builder file, lines 288-321):

    func doWorkInParallel(title string, elements []interface\x7b\x7d,
        callback func(idx int, el interface\x7b\x7d) error) error
      - returns nil immediately when len(elements) == 0, spawning no goroutine
      - otherwise spawns one goroutine per element; each sends exactly one
        message: an error on errChan, or a done token on doneChan
      - the collection loop tallies doneCount and appends error strings to
        allErr until doneCount + len(allErr) >= len(elements)
      - returns nil if allErr is empty, else the aggregate error string
        "<title>: <doneCount>/<total>\n<allErr joined by newlines>".

`workerResults` gives each worker's outcome (`none` = success, `some msg` =
the error message).  `collectLoop` is the collection loop, consuming the
outcomes in completion order.  `completed` in `doWorkInParallel` is the
completion order: any permutation of `workerResults`. -/

/-- Per-worker outcomes: worker `idx` runs `callback idx el` on element `el`.
`none` models a nil error (success), `some msg` an error with message `msg`. -/
def workerResults {α : Type} (elements : List α) (callback : Nat → α → Option String) :
    List (Option String) :=
  elements.enum.map (fun p => callback p.1 p.2)

/-- The collection loop of `doWorkInParallel`: processes worker outcomes in
completion order, incrementing `doneCount` on a done token and appending the
error message to `allErr` on an error.  Returns (doneCount, allErr). -/
def collectLoop : List (Option String) → Nat → List String → Nat × List String
  | [], done, allErr => (done, allErr)
  | none :: rest, done, allErr => collectLoop rest (done + 1) allErr
  | some e :: rest, done, allErr => collectLoop rest done (allErr ++ [e])

/-- The aggregate error string built by `doWorkInParallel` when at least one
worker failed: `fmt.Errorf("%s: %d/%d\n%s", title, doneCount, len(elements),
strings.Join(allErr, "\n"))`. -/
def mkAggError (title : String) (done total : Nat) (allErr : List String) : String :=
  title ++ ": " ++ toString done ++ "/" ++ toString total ++ "\n" ++
    String.intercalate "\n" allErr

/-- Number of worker goroutines started by `doWorkInParallel`: none when the
element list is empty (early return before the spawn loop), else one per
element. -/
def workersSpawned {α : Type} (elements : List α) : Nat :=
  if elements.length = 0 then 0 else elements.length

/-- `doWorkInParallel` from the Go source.  `completed` is the order in which
the collection loop receives the worker outcomes; the theorems quantify over
every permutation of `workerResults elements callback`. -/
def doWorkInParallel {α : Type} (title : String) (elements : List α)
    (callback : Nat → α → Option String) (completed : List (Option String)) :
    Except String Unit :=
  if elements.length = 0 then Except.ok ()
  else
    let c := collectLoop completed 0 []
    if 0 < c.2.length then
      Except.error (mkAggError title c.1 elements.length c.2)
    else Except.ok ()

lemma collectLoop_fst (l : List (Option String)) (done : Nat) (allErr : List String) :
    (collectLoop l done allErr).1 = done + l.countP Option.isNone := by
  induction l generalizing done allErr with
  | nil => simp [collectLoop]
  | cons hd tl ih =>
    cases hd with
    | none => simp [collectLoop, ih, List.countP_cons, Option.isNone]; omega
    | some e => simp [collectLoop, ih, List.countP_cons, Option.isNone]

lemma collectLoop_snd (l : List (Option String)) (done : Nat) (allErr : List String) :
    (collectLoop l done allErr).2 = allErr ++ l.filterMap id := by
  induction l generalizing done allErr with
  | nil => simp [collectLoop]
  | cons hd tl ih =>
    cases hd with
    | none => simp [collectLoop, ih]
    | some e => simp [collectLoop, ih]

lemma length_filterMap_id_eq_countP (l : List (Option String)) :
    (l.filterMap id).length = l.countP Option.isSome := by
  induction l with
  | nil => simp
  | cons hd tl ih =>
    cases hd with
    | none => simpa [List.countP_cons, Option.isSome] using ih
    | some e => simp [List.countP_cons, Option.isSome, ih]

lemma countP_none_add_countP_some (l : List (Option String)) :
    l.countP Option.isNone + l.countP Option.isSome = l.length := by
  induction l with
  | nil => simp
  | cons hd tl ih =>
    cases hd with
    | none => simp [List.countP_cons, Option.isNone, Option.isSome] at *; omega
    | some e => simp [List.countP_cons, Option.isNone, Option.isSome] at *; omega

lemma workerResults_length {α : Type} (elements : List α)
    (callback : Nat → α → Option String) :
    (workerResults elements callback).length = elements.length := by
  simp [workerResults]

/-- C1.  For every list of N ≥ 0 work items and every completion order
(permutation of the per-worker outcomes): the call returns success exactly
when no worker erred; otherwise it returns the aggregate error built from a
failure count equal to the number of erring items and a success count equal
to N minus that number; for N = 0 it returns success and spawns no worker. -/
theorem doWorkInParallel_correct {α : Type} (title : String) (elements : List α)
    (callback : Nat → α → Option String) (completed : List (Option String))
    (hperm : completed.Perm (workerResults elements callback)) :
    (doWorkInParallel title elements callback completed = Except.ok () ↔
      ∀ r ∈ workerResults elements callback, r = none) ∧
    (collectLoop completed 0 []).2.length =
      (workerResults elements callback).countP Option.isSome ∧
    (collectLoop completed 0 []).1 =
      elements.length - (workerResults elements callback).countP Option.isSome ∧
    (elements.length = 0 →
      doWorkInParallel title elements callback completed = Except.ok () ∧
      workersSpawned elements = 0) ∧
    ((∃ r ∈ workerResults elements callback, r ≠ none) →
      doWorkInParallel title elements callback completed =
        Except.error (mkAggError title (collectLoop completed 0 []).1
          elements.length (collectLoop completed 0 []).2)) := by
  have hlen : completed.length = elements.length := by
    rw [hperm.length_eq, workerResults_length]
  have hsome : completed.countP Option.isSome =
      (workerResults elements callback).countP Option.isSome :=
    hperm.countP_eq _
  have hnone : completed.countP Option.isNone =
      (workerResults elements callback).countP Option.isNone :=
    hperm.countP_eq _
  have hfst : (collectLoop completed 0 []).1 =
      elements.length - (workerResults elements callback).countP Option.isSome := by
    rw [collectLoop_fst, hnone]
    have h1 := countP_none_add_countP_some (workerResults elements callback)
    rw [workerResults_length] at h1
    omega
  have hsnd : (collectLoop completed 0 []).2.length =
      (workerResults elements callback).countP Option.isSome := by
    rw [collectLoop_snd]
    simpa [length_filterMap_id_eq_countP] using hsome
  refine ⟨?_, hsnd, hfst, ?_, ?_⟩
  · constructor
    · intro hok r hr
      by_cases hn : elements.length = 0
      · have : workerResults elements callback = [] := by
          have := workerResults_length elements callback
          exact List.eq_nil_of_length_eq_zero (by omega)
        rw [this] at hr; simp at hr
      · unfold doWorkInParallel at hok
        rw [if_neg hn] at hok
        by_cases hpos : 0 < (collectLoop completed 0 []).2.length
        · rw [if_pos hpos] at hok; exact absurd hok (by simp)
        · have hcount : (workerResults elements callback).countP Option.isSome = 0 := by
            omega
          cases r with
          | none => rfl
          | some e =>
            exfalso
            have : 0 < (workerResults elements callback).countP Option.isSome := by
              apply List.countP_pos_iff.mpr
              exact ⟨some e, hr, by simp [Option.isSome]⟩
            omega
    · intro hall
      unfold doWorkInParallel
      by_cases hn : elements.length = 0
      · rw [if_pos hn]
      · rw [if_neg hn]
        have hcount : (workerResults elements callback).countP Option.isSome = 0 := by
          rw [List.countP_eq_zero]
          intro r hr
          rw [hall r hr]; simp [Option.isSome]
        have : ¬ 0 < (collectLoop completed 0 []).2.length := by omega
        simp only [this, if_false]
  · intro hn
    constructor
    · unfold doWorkInParallel; rw [if_pos hn]
    · simp [workersSpawned, hn]
  · rintro ⟨r, hr, hrne⟩
    have hrpos : 0 < (workerResults elements callback).countP Option.isSome := by
      apply List.countP_pos_iff.mpr
      refine ⟨r, hr, ?_⟩
      cases r with
      | none => exact absurd rfl hrne
      | some e => simp [Option.isSome]
    have hn : ¬ elements.length = 0 := by
      intro h
      have : workerResults elements callback = [] :=
        List.eq_nil_of_length_eq_zero (by rw [workerResults_length]; omega)
      rw [this] at hrpos
      simp at hrpos
    have hpos : 0 < (collectLoop completed 0 []).2.length := by omega
    unfold doWorkInParallel
    rw [if_neg hn, if_pos hpos]

/-- Witness for C1 at a concrete input: three items, the middle one failing,
received in reversed completion order. -/
theorem doWorkInParallel_correct_witness :
    ([none, some "boom", none] : List (Option String)).Perm
      (workerResults [10, 20, 30]
        (fun i _ => if i = 1 then some "boom" else none)) ∧
    (doWorkInParallel "starting containers" [10, 20, 30]
        (fun i _ => if i = 1 then some "boom" else none)
        [none, some "boom", none] = Except.ok () ↔
      ∀ r ∈ workerResults [10, 20, 30]
        (fun i _ => if i = 1 then some "boom" else none), r = none) := by
  have h := doWorkInParallel_correct "starting containers" [10, 20, 30]
    (fun i _ => if i = 1 then some "boom" else none)
    [none, some "boom", none] (by decide)
  exact ⟨by decide, h.1⟩

/-! ## QuorumBuilder.startContainers

Go source (primary builder file, lines 185-195): the callback passed to
`doWorkInParallel` builds the container via `containerFn(idx, node)` and, on
success, calls `c.Start()`.  Both error values are returned UNCHANGED: no
index is attached to the message (unlike the older duplicate builder file,
which wrapped errors as "%d: %s").

A `Container` produced by `containerFn` is modelled by the outcome of its
`Start()` call, so `containerFn` returns `Except String (Option String)`:
`Except.error e` when construction fails, `Except.ok s` when construction
succeeds and `Start()` returns `s` (`none` = nil error). -/

/-- The per-unit callback of `startContainers`: the error of `containerFn`,
or else the error of `Container.Start()`, each passed through unchanged. -/
def startContainersCallback {ν : Type} (containerFn : Nat → ν → Except String (Option String))
    (idx : Nat) (node : ν) : Option String :=
  match containerFn idx node with
  | Except.error e => some e
  | Except.ok startRes => startRes

/-- `QuorumBuilder.startContainers`, the parallel stage runner used by the
tx-manager stage and the ledger-node stage. -/
def startContainers {ν : Type} (nodes : List ν)
    (containerFn : Nat → ν → Except String (Option String))
    (completed : List (Option String)) : Except String Unit :=
  doWorkInParallel "starting containers" nodes (startContainersCallback containerFn) completed

/-- Substring test on character lists, used to state what an aggregate error
message does and does not contain. -/
def charsContain (sub : List Char) (l : List Char) : Bool :=
  l.tails.any (fun t => sub.isPrefixOf t)

/-- `strContains s sub = true` iff `sub` occurs inside `s`. -/
def strContains (s sub : String) : Bool :=
  charsContain sub.data s.data

/-- C2 counterexample.  A stage of 3 units whose unit 0 fails with message
"boom" yields the aggregate error "starting containers: 2/3\nboom": the
message "boom" is preserved but the digit "0" (the failing unit's index)
occurs nowhere in the error.  Moreover the same aggregate error is produced
when instead unit 2 is the failing one, so the error does not determine —
hence does not contain — the failing unit's index. -/
theorem startContainers_error_lacks_index :
    startContainers [10, 20, 30]
        (fun i _ => if i = 0 then Except.error "boom" else Except.ok none)
        [some "boom", none, none] =
      Except.error "starting containers: 2/3\nboom" ∧
    strContains "starting containers: 2/3\nboom" "boom" = true ∧
    strContains "starting containers: 2/3\nboom" "0" = false ∧
    startContainers [10, 20, 30]
        (fun i _ => if i = 0 then Except.error "boom" else Except.ok none)
        [some "boom", none, none] =
      startContainers [10, 20, 30]
        (fun i _ => if i = 2 then Except.error "boom" else Except.ok none)
        [some "boom", none, none] := by
  refine ⟨rfl, by decide, by decide, rfl⟩

/-- C2 amended.  For every Builder parallel stage (the tx-manager stage, the
ledger-node stage, and each Destroy removal pass run through the same
executor) and every completion order, if unit `i` fails with message `m`
then the stage returns the aggregate error built from the collected error
list, and `m` is in that list; the failing unit's index is not attached. -/
theorem startContainers_aggregates_messages {ν : Type} (nodes : List ν)
    (containerFn : Nat → ν → Except String (Option String))
    (completed : List (Option String))
    (hperm : completed.Perm (workerResults nodes (startContainersCallback containerFn)))
    (i : Nat) (m : String) (hi : i < nodes.length)
    (hfail : startContainersCallback containerFn i nodes[i] = some m) :
    ∃ errs : List String,
      startContainers nodes containerFn completed =
        Except.error (mkAggError "starting containers"
          (nodes.length - errs.length) nodes.length errs) ∧
      m ∈ errs := by
  refine ⟨(collectLoop completed 0 []).2, ?_, ?_⟩
  · have hmem : some m ∈ workerResults nodes (startContainersCallback containerFn) := by
      have hlen : i < (workerResults nodes (startContainersCallback containerFn)).length := by
        rw [workerResults_length]; exact hi
      have : (workerResults nodes (startContainersCallback containerFn))[i] = some m := by
        simp [workerResults, hfail]
      rw [← this]
      exact List.getElem_mem _
    have hmemc : some m ∈ completed := hperm.symm.subset hmem
    have herrs : m ∈ (collectLoop completed 0 []).2 := by
      rw [collectLoop_snd]
      simp only [List.nil_append]
      exact List.mem_filterMap.mpr ⟨some m, hmemc, rfl⟩
    have hpos : 0 < (collectLoop completed 0 []).2.length :=
      List.length_pos.mpr (List.ne_nil_of_mem herrs)
    have hn : ¬ nodes.length = 0 := by omega
    have hsome : completed.countP Option.isSome =
        (workerResults nodes (startContainersCallback containerFn)).countP Option.isSome :=
      hperm.countP_eq _
    have hnone : completed.countP Option.isNone =
        (workerResults nodes (startContainersCallback containerFn)).countP Option.isNone :=
      hperm.countP_eq _
    have htot := countP_none_add_countP_some
      (workerResults nodes (startContainersCallback containerFn))
    rw [workerResults_length] at htot
    have hsndlen : (collectLoop completed 0 []).2.length =
        (workerResults nodes (startContainersCallback containerFn)).countP Option.isSome := by
      rw [collectLoop_snd]
      simpa [length_filterMap_id_eq_countP] using hsome
    have hfst : (collectLoop completed 0 []).1 =
        nodes.length - (collectLoop completed 0 []).2.length := by
      rw [collectLoop_fst, hnone, hsndlen]
      omega
    unfold startContainers doWorkInParallel
    rw [if_neg hn]
    simp only [hpos, if_true, hfst]
  · rw [collectLoop_snd]
    simp only [List.nil_append]
    have hmem : some m ∈ workerResults nodes (startContainersCallback containerFn) := by
      have hlen : i < (workerResults nodes (startContainersCallback containerFn)).length := by
        rw [workerResults_length]; exact hi
      have : (workerResults nodes (startContainersCallback containerFn))[i] = some m := by
        simp [workerResults, hfail]
      rw [← this]
      exact List.getElem_mem _
    exact List.mem_filterMap.mpr ⟨some m, hperm.symm.subset hmem, rfl⟩

/-- Witness for C2's amended theorem at a concrete input: unit 1 of 3 fails
with "bad", outcomes received in natural order. -/
theorem startContainers_aggregates_messages_witness :
    ∃ errs : List String,
      startContainers [10, 20, 30]
          (fun i _ => if i = 1 then Except.error "bad" else Except.ok none)
          [none, some "bad", none] =
        Except.error (mkAggError "starting containers"
          (([10, 20, 30] : List Nat).length - errs.length)
          ([10, 20, 30] : List Nat).length errs) ∧
      "bad" ∈ errs :=
  startContainers_aggregates_messages [10, 20, 30]
    (fun i _ => if i = 1 then Except.error "bad" else Except.ok none)
    [none, some "bad", none] (by decide) 1 "bad" (by decide) (by decide)

/-! ## QuorumBuilder.Build

Go source (primary builder file, lines 99-115):

    func (qb *QuorumBuilder) Build() error
      - ioutil.TempDir: on error return it, else record qb.tmpDir
      - qb.buildDockerNetwork(): on error return it
      - qb.startTxManagers(): on error return it
      - qb.startQuorums(): on error return it
      - return nil

Each stage's outcome is a field of `BuildEnv` (`none` = nil error); `runBuild`
threads them in the source's order and records the stages entered. -/

/-- The four stages of `Build()`, in source order. -/
inductive BuildStage
  | tempDir
  | network
  | txManagers
  | quorums
deriving DecidableEq

/-- The canonical stage order of `Build()`. -/
def buildStageOrder : List BuildStage :=
  [BuildStage.tempDir, BuildStage.network, BuildStage.txManagers, BuildStage.quorums]

/-- Outcome of each stage of one `Build()` run (`none` = success). -/
structure BuildEnv where
  tempDirResult : Option String
  networkResult : Option String
  txManagersResult : Option String
  quorumsResult : Option String

/-- `QuorumBuilder.Build`: sequential composition of the four stages with
fail-fast error returns.  Also returns the list of stages entered, in the
order they were entered. -/
def runBuild (env : BuildEnv) : Option String × List BuildStage :=
  match env.tempDirResult with
  | some e => (some e, [BuildStage.tempDir])
  | none =>
    match env.networkResult with
    | some e => (some e, [BuildStage.tempDir, BuildStage.network])
    | none =>
      match env.txManagersResult with
      | some e => (some e, [BuildStage.tempDir, BuildStage.network, BuildStage.txManagers])
      | none =>
        match env.quorumsResult with
        | some e => (some e, buildStageOrder)
        | none => (none, buildStageOrder)

/-- C3.  `Build()` enters its stages strictly in the order temp directory,
network, tx-manager stage, ledger-node stage (the entered trace is always an
initial segment of that order); the ledger-node stage is entered only after
the tx-manager stage has fully resolved with success; and when the
tx-manager stage errs (earlier stages having succeeded), `Build()` returns
exactly that error and never enters the ledger-node stage. -/
theorem runBuild_stage_order (env : BuildEnv) :
    (∃ k, (runBuild env).2 = buildStageOrder.take k) ∧
    (BuildStage.quorums ∈ (runBuild env).2 →
      env.txManagersResult = none ∧ BuildStage.txManagers ∈ (runBuild env).2) ∧
    (∀ e, env.tempDirResult = none → env.networkResult = none →
      env.txManagersResult = some e →
      (runBuild env).1 = some e ∧ BuildStage.quorums ∉ (runBuild env).2) := by
  obtain ⟨t, n, x, q⟩ := env
  refine ⟨?_, ?_, ?_⟩
  · cases t with
    | some e => exact ⟨1, rfl⟩
    | none =>
      cases n with
      | some e => exact ⟨2, rfl⟩
      | none =>
        cases x with
        | some e => exact ⟨3, rfl⟩
        | none =>
          cases q with
          | some e => exact ⟨4, rfl⟩
          | none => exact ⟨4, rfl⟩
  · intro hq
    cases t with
    | some e => simp [runBuild] at hq
    | none =>
      cases n with
      | some e => simp [runBuild] at hq
      | none =>
        cases x with
        | some e => simp [runBuild, buildStageOrder] at hq
        | none =>
          cases q with
          | some e => exact ⟨rfl, by simp [runBuild, buildStageOrder]⟩
          | none => exact ⟨rfl, by simp [runBuild, buildStageOrder]⟩
  · intro e ht hn hx
    subst ht; subst hn; subst hx
    exact ⟨rfl, by simp [runBuild, buildStageOrder]⟩

/-- Witness for C3 at a concrete input: temp directory and network succeed,
the tx-manager stage fails with "keygen failed". -/
theorem runBuild_stage_order_witness :
    (runBuild ⟨none, none, some "keygen failed", none⟩).1 = some "keygen failed" ∧
    BuildStage.quorums ∉ (runBuild ⟨none, none, some "keygen failed", none⟩).2 :=
  (runBuild_stage_order ⟨none, none, some "keygen failed", none⟩).2.2
    "keygen failed" rfl rfl rfl

/-! ## TesseraTxManager (docker/txmanager.go)

`Start()` (lines 42-44) and `Stop()` (lines 46-48) are literally
`return nil`: no engine call of any kind.

`GenerateKeys()` (lines 50-96):
  - ioutil.TempDir for a scratch directory
  - ContainerCreate with WorkingDir "/tm", the key-generation entrypoint
    override, and a bind of the scratch directory onto "/tm"
  - ContainerStart; only after a successful start, defer
    ContainerRemove(Force: true)
  - ContainerWait returns a result channel and an error channel; the Go
    source discards the result channel and enters a select statement whose
    ONLY case receives from the error channel.  When the container exits
    normally nothing is ever sent on the error channel, so the select blocks
    forever: the function never returns, the deferred remove never runs, and
    the file-reading code after the select (lines 89-95) is unreachable.

Each fallible engine/filesystem step's outcome is a field of `KeygenEnv`.
The result type is `Option (...)`: `none` models "the call never returns". -/

/-- Engine and filesystem operations issued by the tx-manager, as recorded
in a trace. -/
inductive KOp
  | tempDirCreate
  | containerCreate (image workingDir : String) (entrypoint binds : List String)
  | containerStart (id : String)
  | containerWait (id : String)
  | containerRemove (id : String) (force : Bool)
  | fileRead (path : String)
deriving DecidableEq

/-- Outcomes of the fallible steps of one `GenerateKeys` run.  `tmpDirResult`
and `createResult` carry the scratch directory path / container id on
success; `waitErr = some e` means the engine's wait error channel delivered
`e`, `waitErr = none` means the container exited normally and the error
channel stays silent forever. -/
structure KeygenEnv where
  tmpDirResult : Except String String
  createResult : Except String String
  startErr : Option String
  waitErr : Option String
  pubReadResult : Except String (List Nat)
  keyReadResult : Except String (List Nat)

/-- The overridden entrypoint of the ephemeral key-generation container. -/
def tesseraKeygenEntrypoint : List String :=
  ["/bin/sh", "-c", "echo \"\n\" | java -jar /tessera/tessera-app.jar -keygen"]

/-- `TesseraTxManager.Start` from the Go source: `return nil`.  It performs
no engine operation whatsoever. -/
def TesseraTxManagerStart (_env : KeygenEnv) : Option String × List KOp :=
  (none, [])

/-- `TesseraTxManager.Stop` from the Go source: `return nil`.  It performs
no engine operation whatsoever. -/
def TesseraTxManagerStop (_env : KeygenEnv) : Option String × List KOp :=
  (none, [])

/-- The key-file reading code at the end of `GenerateKeys` (lines 89-95):
read `<scratch>/.pub`, on error return it, read `<scratch>/.key`, return
both contents.  In the source this code stands AFTER the single-case select
and is therefore unreachable: `generateKeys` never invokes it. -/
def generateKeysReadPhase (tmpDataDir : String) (env : KeygenEnv) :
    Except String (List Nat × List Nat) × List KOp :=
  match env.pubReadResult with
  | Except.error e => (Except.error e, [KOp.fileRead (tmpDataDir ++ "/.pub")])
  | Except.ok pub =>
    match env.keyReadResult with
    | Except.error e =>
        (Except.error e,
          [KOp.fileRead (tmpDataDir ++ "/.pub"), KOp.fileRead (tmpDataDir ++ "/.key")])
    | Except.ok key =>
        (Except.ok (pub, key),
          [KOp.fileRead (tmpDataDir ++ "/.pub"), KOp.fileRead (tmpDataDir ++ "/.key")])

/-- `TesseraTxManager.GenerateKeys` from the Go source.  First component:
`some r` when the call returns with result `r`, `none` when it blocks
forever; second component: the trace of operations issued. -/
def generateKeys (image : String) (env : KeygenEnv) :
    Option (Except String (List Nat × List Nat)) × List KOp :=
  match env.tmpDirResult with
  | Except.error e =>
      (some (Except.error ("GenerateKeys: can't create tmp dir - " ++ e)),
        [KOp.tempDirCreate])
  | Except.ok tmpDataDir =>
    let containerWorkingDir := "/tm"
    let createOp := KOp.containerCreate image containerWorkingDir
      tesseraKeygenEntrypoint [tmpDataDir ++ ":" ++ containerWorkingDir]
    match env.createResult with
    | Except.error e =>
        (some (Except.error ("GenerateKeys: can't create container - " ++ e)),
          [KOp.tempDirCreate, createOp])
    | Except.ok containerId =>
      match env.startErr with
      | some e =>
          (some (Except.error
              ("GenerateKeys: can't start container " ++ containerId ++ " - " ++ e)),
            [KOp.tempDirCreate, createOp, KOp.containerStart containerId])
      | none =>
        -- defer ContainerRemove(containerId, Force: true) registered here;
        -- it fires on each return below, never when the call blocks.
        match env.waitErr with
        | some e =>
            (some (Except.error
                ("GenerateKeys: container " ++ containerId ++ " is not running - " ++ e)),
              [KOp.tempDirCreate, createOp, KOp.containerStart containerId,
                KOp.containerWait containerId, KOp.containerRemove containerId true])
        | none =>
            -- normal exit: the error channel never delivers, the single-case
            -- select blocks forever; generateKeysReadPhase is never reached.
            (none,
              [KOp.tempDirCreate, createOp, KOp.containerStart containerId,
                KOp.containerWait containerId])

/-- A run in which every step succeeds: scratch directory created, ephemeral
container created as "cid1", started, and exited normally; both key files
are present and readable. -/
def keygenSuccessEnv : KeygenEnv :=
  ⟨Except.ok "/tmp/qctl-1", Except.ok "cid1", none, none,
    Except.ok [1, 2], Except.ok [3, 4]⟩

/-- C4 counterexample.  The claim — `Start()` creates and starts the
long-running container on the engine and errs exactly when the engine call
fails — is false: with an engine whose container start fails, `Start()`
still returns nil, and its trace contains no container-start operation at
all. -/
theorem tesseraStart_not_engine_backed :
    ¬ (∀ env : KeygenEnv,
        (∃ id, KOp.containerStart id ∈ (TesseraTxManagerStart env).2) ∧
        ((TesseraTxManagerStart env).1.isSome ↔ env.startErr.isSome)) := by
  intro h
  obtain ⟨⟨id, hid⟩, -⟩ := h ⟨Except.ok "/tmp/x", Except.ok "cid",
    some "engine start failure", none, Except.ok [], Except.ok []⟩
  simp [TesseraTxManagerStart] at hid

/-- C4 amended.  `TesseraTxManager.Start()` and `Stop()` are stubs: for every
engine behaviour they return nil (success) and issue no engine operation. -/
theorem tesseraStartStop_noop (env : KeygenEnv) :
    TesseraTxManagerStart env = (none, []) ∧
    TesseraTxManagerStop env = (none, []) :=
  ⟨rfl, rfl⟩

/-- C5.  Evaluating `GenerateKeys` on the all-success run: the container is
created, started and waited on, but because the select's only case receives
from the never-delivering error channel, the call never returns (`none`) and
neither key file is ever read — contradicting the claim that on successful
exit the two key files' contents are returned. -/
theorem generateKeys_blocks_on_normal_exit :
    (generateKeys "quorumengineering/tessera" keygenSuccessEnv).1 = none ∧
    KOp.containerWait "cid1" ∈
      (generateKeys "quorumengineering/tessera" keygenSuccessEnv).2 ∧
    (∀ p, KOp.fileRead p ∉
      (generateKeys "quorumengineering/tessera" keygenSuccessEnv).2) := by
  refine ⟨rfl, by simp [generateKeys, keygenSuccessEnv], ?_⟩
  intro p
  simp [generateKeys, keygenSuccessEnv]

/-- C10.  Evaluating `GenerateKeys` on the all-success run: the ephemeral
container "cid1" is started, the call never returns, and no
container-remove operation (forced or not) ever appears in the trace — the
started key-generation container is left behind, contradicting the claim. -/
theorem generateKeys_started_container_not_removed :
    KOp.containerStart "cid1" ∈
      (generateKeys "quorumengineering/tessera" keygenSuccessEnv).2 ∧
    (generateKeys "quorumengineering/tessera" keygenSuccessEnv).1 = none ∧
    (∀ id f, KOp.containerRemove id f ∉
      (generateKeys "quorumengineering/tessera" keygenSuccessEnv).2) := by
  refine ⟨by simp [generateKeys, keygenSuccessEnv], rfl, ?_⟩
  intro id f
  simp [generateKeys, keygenSuccessEnv]

/-! ## QuorumBuilder.pullImage

Go source (primary builder file, lines 207-225): the whole body runs under
`qb.pullMux.Lock()` / deferred `Unlock()`, so two concurrent `pullImage`
calls on one Builder execute as a sequential composition; that sequential
composition is what the theorems analyse.  The body lists the engine's
images filtered by the reference and, when the list is empty OR the list
call erred, calls ImagePull, wrapping a pull failure as
"pullImage: <image> - <err>".  A successful pull makes the image present in
the engine's image store. -/

/-- Engine image operations issued by `pullImage`. -/
inductive POp
  | imageList (ref : String)
  | imagePull (ref : String)
deriving DecidableEq

/-- Is the operation an actual engine pull call? -/
def isPullOp : POp → Bool
  | POp.imagePull _ => true
  | _ => false

/-- Lookup in an id-to-error-message table (`none` = the operation on that
id succeeds). -/
def lookupErr (tab : List (String × String)) (key : String) : Option String :=
  match tab.find? (fun p => p.1 == key) with
  | some p => some p.2
  | none => none

/-- Engine state seen by `pullImage`: the image store, whether ImageList
errs, and which image references fail to pull (with their messages). -/
structure PullEnv where
  images : List String
  listErr : Option String
  pullErr : List (String × String)

/-- `QuorumBuilder.pullImage` from the Go source (body under the mutex).
Returns (error, new engine state, operation trace). -/
def pullImage (image : String) (e : PullEnv) : Option String × PullEnv × List POp :=
  let images := e.images.filter (fun i => i == image)
  if images.length == 0 || e.listErr.isSome then
    match lookupErr e.pullErr image with
    | some m =>
        (some ("pullImage: " ++ image ++ " - " ++ m), e,
          [POp.imageList image, POp.imagePull image])
    | none =>
        (none, { e with images := image :: e.images },
          [POp.imageList image, POp.imagePull image])
  else (none, e, [POp.imageList image])

/-- Two `pullImage` requests for the same image, serialized by the Builder's
mutex: the second runs on the engine state left by the first.  Returns the
final engine state and the concatenated operation trace. -/
def pullImageTwice (image : String) (e : PullEnv) : PullEnv × List POp :=
  let r1 := pullImage image e
  let r2 := pullImage image r1.2.1
  (r2.2.1, r1.2.2 ++ r2.2.2)

/-- C8 counterexample.  With an empty image store and an engine that refuses
to pull "tessera", two serialized `pullImage` requests for "tessera" both
invoke the engine pull: the trace contains two actual pull calls, not at
most one.  (The first pull fails, leaves the store empty, and the second
request's list-then-pull repeats the pull.) -/
theorem pullImage_twice_two_pulls :
    ((pullImageTwice "tessera" ⟨[], none, [("tessera", "registry refused")]⟩).2.countP
      isPullOp) = 2 := by
  decide

/-- C8 amended.  Serialized under the Builder's mutex, two `pullImage`
requests for the same image perform at most one actual engine pull call,
PROVIDED the engine's image listing succeeds and the image's pull succeeds;
a failed pull is retried by the second request (best-effort, per the spec's
stated non-goal of exactly-once pulls). -/
theorem pullImage_twice_at_most_one_pull (image : String) (e : PullEnv)
    (hlist : e.listErr = none) (hpull : lookupErr e.pullErr image = none) :
    ((pullImageTwice image e).2.countP isPullOp) ≤ 1 := by
  unfold pullImageTwice pullImage
  rw [hlist]
  by_cases hempty : (e.images.filter (fun i => i == image)).length = 0
  · simp [hempty, hlist, hpull, List.filter_cons, isPullOp, List.countP_cons]
  · simp [hempty, hlist, isPullOp, List.countP_cons]

/-- Witness for C8's amended theorem: empty image store, listing succeeds,
pulling "tessera" succeeds. -/
theorem pullImage_twice_at_most_one_pull_witness :
    ((pullImageTwice "tessera" ⟨[], none, []⟩).2.countP isPullOp) ≤ 1 :=
  pullImage_twice_at_most_one_pull "tessera" ⟨[], none, []⟩ rfl rfl

/-! ## QuorumBuilder.Destroy

Go source (primary builder file, lines 227-262):

    func (qb *QuorumBuilder) Destroy() error
      - os.RemoveAll(qb.tmpDir): the returned error is DISCARDED
      - ContainerList filtered by the build's label set (All: true); then one
        doWorkInParallel pass removing each listed container with Force; a
        pass failure is wrapped "destroy: %s" and RETURNED IMMEDIATELY
      - only if the container pass succeeded: NetworkList by the same label
        filter, then a doWorkInParallel pass removing each listed network,
        its failure wrapped "destroy: %s"
      - nil otherwise.

Engine resources carry an id and a label set; the engine state also maps
resource ids to removal-error messages (`none` = that removal succeeds, and
a successful removal deletes every resource with that id from the state).
Listing is modelled as an infallible label filter.  The removal passes run
through the same `doWorkInParallel` embedding; their per-unit outcomes do
not depend on completion order (shown for C1), so the passes are taken in
index order here. -/

/-- A container or network as the engine stores it: id plus label set. -/
structure EngResource where
  id : String
  labels : List (String × String)
deriving DecidableEq

/-- Engine state for `Destroy`: stored containers and networks, and the
per-id removal outcomes. -/
structure Engine where
  containers : List EngResource
  networks : List EngResource
  containerRemoveErr : List (String × String)
  networkRemoveErr : List (String × String)
deriving DecidableEq

/-- Does the resource carry every label of the build's label set?  (The Go
code adds one "label" filter per common label; the engine matches resources
having all of them.) -/
def matchesLabels (want : List (String × String)) (r : EngResource) : Bool :=
  want.all (fun p => r.labels.contains p)

/-- The labeled containers found by `Destroy`'s ContainerList call. -/
def cTargets (want : List (String × String)) (e : Engine) : List EngResource :=
  e.containers.filter (matchesLabels want)

/-- The labeled networks found by `Destroy`'s NetworkList call. -/
def nTargets (want : List (String × String)) (e : Engine) : List EngResource :=
  e.networks.filter (matchesLabels want)

/-- The error messages of the targets whose removal fails, in list order. -/
def removalFailures (tab : List (String × String)) (targets : List EngResource) :
    List String :=
  targets.filterMap (fun c => lookupErr tab c.id)

/-- Operations issued by `Destroy`, as recorded in a trace. -/
inductive DOp
  | tmpDirRemove
  | containerList
  | containerRemove (id : String)
  | networkList
  | networkRemove (id : String)
deriving DecidableEq

lemma workerResults_const {α : Type} (l : List α) (f : α → Option String) :
    workerResults l (fun _ a => f a) = l.map f := by
  unfold workerResults
  rw [show (fun p : Nat × α => f p.2) = (f ∘ Prod.snd) from rfl, ← List.map_map,
    List.enum_map_snd]

lemma doWorkInParallel_id_ok_iff {α : Type} (title : String) (l : List α)
    (f : α → Option String) :
    doWorkInParallel title l (fun _ a => f a) (workerResults l (fun _ a => f a)) =
      Except.ok () ↔ l.filterMap f = [] := by
  unfold doWorkInParallel
  by_cases hn : l.length = 0
  · rw [if_pos hn]
    have : l = [] := List.eq_nil_of_length_eq_zero hn
    subst this
    simp
  · rw [if_neg hn]
    have herrs : (collectLoop (workerResults l (fun _ a => f a)) 0 []).2 = l.filterMap f := by
      rw [collectLoop_snd, workerResults_const, List.nil_append, List.filterMap_map]
      rfl
    by_cases hpos : 0 < (collectLoop (workerResults l (fun _ a => f a)) 0 []).2.length
    · rw [if_pos hpos]
      constructor
      · intro h; exact absurd h (by simp)
      · intro h
        rw [herrs, h] at hpos
        simp at hpos
    · rw [if_neg hpos]
      constructor
      · intro _
        rw [herrs] at hpos
        exact List.eq_nil_of_length_eq_zero (by omega)
      · intro _; rfl

lemma doWorkInParallel_id_error {α : Type} (title : String) (l : List α)
    (f : α → Option String) (hne : l.filterMap f ≠ []) :
    doWorkInParallel title l (fun _ a => f a) (workerResults l (fun _ a => f a)) =
      Except.error (mkAggError title (l.length - (l.filterMap f).length) l.length
        (l.filterMap f)) := by
  have herrs : (collectLoop (workerResults l (fun _ a => f a)) 0 []).2 = l.filterMap f := by
    rw [collectLoop_snd, workerResults_const, List.nil_append, List.filterMap_map]
    rfl
  have hpos : 0 < (collectLoop (workerResults l (fun _ a => f a)) 0 []).2.length := by
    rw [herrs]
    exact List.length_pos.mpr hne
  have hn : ¬ l.length = 0 := by
    intro h
    have : l = [] := List.eq_nil_of_length_eq_zero h
    subst this
    simp at hne
  have hfst : (collectLoop (workerResults l (fun _ a => f a)) 0 []).1 =
      l.length - (l.filterMap f).length := by
    rw [collectLoop_fst, workerResults_const]
    have h1 := countP_none_add_countP_some (l.map f)
    have h2 : (l.map f).filterMap id = l.filterMap f := by
      rw [List.filterMap_map]; rfl
    have h3 := length_filterMap_id_eq_countP (l.map f)
    rw [h2] at h3
    simp only [List.length_map] at h1
    omega
  unfold doWorkInParallel
  rw [if_neg hn, if_pos hpos, hfst, herrs]

/-- The ids whose removal succeeds among the pass's targets; a successful
removal deletes every engine resource carrying that id. -/
def removedIds (tab : List (String × String)) (targets : List EngResource) :
    List String :=
  (targets.filter (fun c => (lookupErr tab c.id).isNone)).map (fun c => c.id)

/-- The container pass of `Destroy`: ContainerList by label, then one
`doWorkInParallel` run removing each target (Force: true).  Returns the
pass's outcome, the engine after the successful removals, and the pass's
operation trace. -/
def destroyContainerPass (want : List (String × String)) (e : Engine) :
    Except String Unit × Engine × List DOp :=
  let cs := cTargets want e
  (doWorkInParallel "removing containers" cs
      (fun _ c => lookupErr e.containerRemoveErr c.id)
      (workerResults cs (fun _ c => lookupErr e.containerRemoveErr c.id)),
    { e with containers :=
        e.containers.filter (fun c => decide (c.id ∉ removedIds e.containerRemoveErr cs)) },
    [DOp.containerList] ++ cs.map (fun c => DOp.containerRemove c.id))

/-- The network pass of `Destroy`: NetworkList by label, then one
`doWorkInParallel` run removing each target. -/
def destroyNetworkPass (want : List (String × String)) (e : Engine) :
    Except String Unit × Engine × List DOp :=
  let ns := nTargets want e
  (doWorkInParallel "removing network" ns
      (fun _ n => lookupErr e.networkRemoveErr n.id)
      (workerResults ns (fun _ n => lookupErr e.networkRemoveErr n.id)),
    { e with networks :=
        e.networks.filter (fun n => decide (n.id ∉ removedIds e.networkRemoveErr ns)) },
    [DOp.networkList] ++ ns.map (fun n => DOp.networkRemove n.id))

/-- `QuorumBuilder.Destroy` from the Go source.  `tmpErr` is the outcome of
`os.RemoveAll` on the temp directory, which the code discards.  A failing
container pass is wrapped "destroy: %s" and returned at once — the network
pass is not entered.  Returns (error, engine after the removals, trace). -/
def destroy (want : List (String × String)) (_tmpErr : Option String) (e : Engine) :
    Except String Unit × Engine × List DOp :=
  let cp := destroyContainerPass want e
  match cp.1 with
  | Except.error msg =>
      (Except.error ("destroy: " ++ msg), cp.2.1, [DOp.tmpDirRemove] ++ cp.2.2)
  | Except.ok _ =>
    let np := destroyNetworkPass want cp.2.1
    match np.1 with
    | Except.error msg =>
        (Except.error ("destroy: " ++ msg), np.2.1,
          [DOp.tmpDirRemove] ++ cp.2.2 ++ np.2.2)
    | Except.ok _ => (Except.ok (), np.2.1, [DOp.tmpDirRemove] ++ cp.2.2 ++ np.2.2)

lemma removalFailures_eq_filterMap (tab : List (String × String))
    (targets : List EngResource) :
    removalFailures tab targets = targets.filterMap (fun c => lookupErr tab c.id) := rfl

lemma destroyContainerPass_ok_iff (want : List (String × String)) (e : Engine) :
    (destroyContainerPass want e).1 = Except.ok () ↔
      removalFailures e.containerRemoveErr (cTargets want e) = [] := by
  unfold destroyContainerPass
  exact doWorkInParallel_id_ok_iff _ _ _

lemma destroyNetworkPass_ok_iff (want : List (String × String)) (e : Engine) :
    (destroyNetworkPass want e).1 = Except.ok () ↔
      removalFailures e.networkRemoveErr (nTargets want e) = [] := by
  unfold destroyNetworkPass
  exact doWorkInParallel_id_ok_iff _ _ _

lemma destroyContainerPass_clears (want : List (String × String)) (e : Engine)
    (h : removalFailures e.containerRemoveErr (cTargets want e) = []) :
    cTargets want (destroyContainerPass want e).2.1 = [] := by
  have hall : ∀ c ∈ cTargets want e, lookupErr e.containerRemoveErr c.id = none := by
    rw [removalFailures_eq_filterMap] at h
    exact fun c hc => List.filterMap_eq_nil_iff.mp h c hc
  rw [List.eq_nil_iff_forall_not_mem]
  intro x hx
  unfold cTargets at hx
  rw [List.mem_filter] at hx
  obtain ⟨hx1, hx2⟩ := hx
  have hcont : (destroyContainerPass want e).2.1.containers =
      e.containers.filter
        (fun c => decide (c.id ∉ removedIds e.containerRemoveErr (cTargets want e))) := rfl
  rw [hcont, List.mem_filter] at hx1
  obtain ⟨hmem, hdec⟩ := hx1
  have hxin : x ∈ cTargets want e := by
    unfold cTargets; rw [List.mem_filter]; exact ⟨hmem, hx2⟩
  have hin : x.id ∈ removedIds e.containerRemoveErr (cTargets want e) := by
    unfold removedIds
    exact List.mem_map.mpr
      ⟨x, List.mem_filter.mpr ⟨hxin, by simp [hall x hxin]⟩, rfl⟩
  rw [decide_eq_true_eq] at hdec
  exact hdec hin

lemma destroyNetworkPass_clears (want : List (String × String)) (e : Engine)
    (h : removalFailures e.networkRemoveErr (nTargets want e) = []) :
    nTargets want (destroyNetworkPass want e).2.1 = [] := by
  have hall : ∀ n ∈ nTargets want e, lookupErr e.networkRemoveErr n.id = none := by
    rw [removalFailures_eq_filterMap] at h
    exact fun n hn => List.filterMap_eq_nil_iff.mp h n hn
  rw [List.eq_nil_iff_forall_not_mem]
  intro x hx
  unfold nTargets at hx
  rw [List.mem_filter] at hx
  obtain ⟨hx1, hx2⟩ := hx
  have hcont : (destroyNetworkPass want e).2.1.networks =
      e.networks.filter
        (fun n => decide (n.id ∉ removedIds e.networkRemoveErr (nTargets want e))) := rfl
  rw [hcont, List.mem_filter] at hx1
  obtain ⟨hmem, hdec⟩ := hx1
  have hxin : x ∈ nTargets want e := by
    unfold nTargets; rw [List.mem_filter]; exact ⟨hmem, hx2⟩
  have hin : x.id ∈ removedIds e.networkRemoveErr (nTargets want e) := by
    unfold removedIds
    exact List.mem_map.mpr
      ⟨x, List.mem_filter.mpr ⟨hxin, by simp [hall x hxin]⟩, rfl⟩
  rw [decide_eq_true_eq] at hdec
  exact hdec hin

lemma destroyContainerPass_no_targets (want : List (String × String)) (e : Engine)
    (h : cTargets want e = []) :
    destroyContainerPass want e = (Except.ok (), e, [DOp.containerList]) := by
  unfold destroyContainerPass
  rw [h]
  simp [doWorkInParallel, workerResults, removedIds]

lemma destroyNetworkPass_no_targets (want : List (String × String)) (e : Engine)
    (h : nTargets want e = []) :
    destroyNetworkPass want e = (Except.ok (), e, [DOp.networkList]) := by
  unfold destroyNetworkPass
  rw [h]
  simp [doWorkInParallel, workerResults, removedIds]

lemma destroyContainerPass_networks (want : List (String × String)) (e : Engine) :
    (destroyContainerPass want e).2.1.networks = e.networks ∧
    (destroyContainerPass want e).2.1.networkRemoveErr = e.networkRemoveErr ∧
    (destroyContainerPass want e).2.1.containerRemoveErr = e.containerRemoveErr :=
  ⟨rfl, rfl, rfl⟩

lemma destroyNetworkPass_containers (want : List (String × String)) (e : Engine) :
    (destroyNetworkPass want e).2.1.containers = e.containers ∧
    (destroyNetworkPass want e).2.1.networkRemoveErr = e.networkRemoveErr ∧
    (destroyNetworkPass want e).2.1.containerRemoveErr = e.containerRemoveErr :=
  ⟨rfl, rfl, rfl⟩

/-- C6.  Whenever one `Destroy()` call succeeds, the engine state it leaves
carries zero containers and zero networks with the build's label set, and a
second `Destroy()` call on that state returns success (nil), leaving the
state unchanged. -/
theorem destroy_idempotent (want : List (String × String)) (tmpErr tmpErr2 : Option String)
    (e : Engine) (hok : (destroy want tmpErr e).1 = Except.ok ()) :
    cTargets want (destroy want tmpErr e).2.1 = [] ∧
    nTargets want (destroy want tmpErr e).2.1 = [] ∧
    (destroy want tmpErr2 (destroy want tmpErr e).2.1).1 = Except.ok () ∧
    (destroy want tmpErr2 (destroy want tmpErr e).2.1).2.1 = (destroy want tmpErr e).2.1 := by
  cases hcp : (destroyContainerPass want e).1 with
  | error msg =>
    have : (destroy want tmpErr e).1 = Except.error ("destroy: " ++ msg) := by
      simp [destroy, hcp]
    rw [this] at hok
    exact absurd hok (by simp)
  | ok u =>
    cases u
    cases hnp : (destroyNetworkPass want (destroyContainerPass want e).2.1).1 with
    | error msg =>
      have : (destroy want tmpErr e).1 = Except.error ("destroy: " ++ msg) := by
        simp [destroy, hcp, hnp]
      rw [this] at hok
      exact absurd hok (by simp)
    | ok u =>
      cases u
      have hres : (destroy want tmpErr e).2.1 =
          (destroyNetworkPass want (destroyContainerPass want e).2.1).2.1 := by
        simp [destroy, hcp, hnp]
      have hcfails : removalFailures e.containerRemoveErr (cTargets want e) = [] :=
        (destroyContainerPass_ok_iff want e).mp hcp
      have hc1 : cTargets want (destroyContainerPass want e).2.1 = [] :=
        destroyContainerPass_clears want e hcfails
      have hnfails : removalFailures
          (destroyContainerPass want e).2.1.networkRemoveErr
          (nTargets want (destroyContainerPass want e).2.1) = [] := by
        have := (destroyNetworkPass_ok_iff want (destroyContainerPass want e).2.1).mp hnp
        simpa using this
      have hn2 : nTargets want
          (destroyNetworkPass want (destroyContainerPass want e).2.1).2.1 = [] :=
        destroyNetworkPass_clears want (destroyContainerPass want e).2.1 hnfails
      have hc2 : cTargets want
          (destroyNetworkPass want (destroyContainerPass want e).2.1).2.1 = [] := by
        unfold cTargets at hc1 ⊢
        rw [(destroyNetworkPass_containers want (destroyContainerPass want e).2.1).1]
        exact hc1
      rw [hres]
      refine ⟨hc2, hn2, ?_, ?_⟩
      · have h1 := destroyContainerPass_no_targets want
          (destroyNetworkPass want (destroyContainerPass want e).2.1).2.1 hc2
        have h2 := destroyNetworkPass_no_targets want
          (destroyNetworkPass want (destroyContainerPass want e).2.1).2.1 hn2
        simp [destroy, h1, h2]
      · have h1 := destroyContainerPass_no_targets want
          (destroyNetworkPass want (destroyContainerPass want e).2.1).2.1 hc2
        have h2 := destroyNetworkPass_no_targets want
          (destroyNetworkPass want (destroyContainerPass want e).2.1).2.1 hn2
        simp [destroy, h1, h2]

/-- Witness for C6: one labeled container and one labeled network, every
removal succeeding; the first `Destroy()` returns nil, so the theorem
applies. -/
theorem destroy_idempotent_witness :
    cTargets [("com.quorum.quorum-tools.id", "demo")]
      (destroy [("com.quorum.quorum-tools.id", "demo")] none
        ⟨[⟨"c1", [("com.quorum.quorum-tools.id", "demo")]⟩],
         [⟨"n1", [("com.quorum.quorum-tools.id", "demo")]⟩], [], []⟩).2.1 = [] ∧
    nTargets [("com.quorum.quorum-tools.id", "demo")]
      (destroy [("com.quorum.quorum-tools.id", "demo")] none
        ⟨[⟨"c1", [("com.quorum.quorum-tools.id", "demo")]⟩],
         [⟨"n1", [("com.quorum.quorum-tools.id", "demo")]⟩], [], []⟩).2.1 = [] ∧
    (destroy [("com.quorum.quorum-tools.id", "demo")] none
      (destroy [("com.quorum.quorum-tools.id", "demo")] none
        ⟨[⟨"c1", [("com.quorum.quorum-tools.id", "demo")]⟩],
         [⟨"n1", [("com.quorum.quorum-tools.id", "demo")]⟩], [], []⟩).2.1).1 =
      Except.ok () ∧
    (destroy [("com.quorum.quorum-tools.id", "demo")] none
      (destroy [("com.quorum.quorum-tools.id", "demo")] none
        ⟨[⟨"c1", [("com.quorum.quorum-tools.id", "demo")]⟩],
         [⟨"n1", [("com.quorum.quorum-tools.id", "demo")]⟩], [], []⟩).2.1).2.1 =
      (destroy [("com.quorum.quorum-tools.id", "demo")] none
        ⟨[⟨"c1", [("com.quorum.quorum-tools.id", "demo")]⟩],
         [⟨"n1", [("com.quorum.quorum-tools.id", "demo")]⟩], [], []⟩).2.1 :=
  destroy_idempotent [("com.quorum.quorum-tools.id", "demo")] none none
    ⟨[⟨"c1", [("com.quorum.quorum-tools.id", "demo")]⟩],
     [⟨"n1", [("com.quorum.quorum-tools.id", "demo")]⟩], [], []⟩ rfl

lemma destroyContainerPass_err (want : List (String × String)) (e : Engine)
    (hne : removalFailures e.containerRemoveErr (cTargets want e) ≠ []) :
    (destroyContainerPass want e).1 =
      Except.error (mkAggError "removing containers"
        ((cTargets want e).length -
          (removalFailures e.containerRemoveErr (cTargets want e)).length)
        (cTargets want e).length
        (removalFailures e.containerRemoveErr (cTargets want e))) := by
  unfold destroyContainerPass
  exact doWorkInParallel_id_error _ _ _ hne

/-- C7 counterexample.  One labeled container whose removal fails and one
labeled network: `Destroy()` returns only the container pass's wrapped
aggregate error, the labeled network is still present in the engine state it
leaves, and the trace contains no network-list or network-remove operation —
the network pass never ran, so the overall error is NOT the aggregation of
both passes. -/
theorem destroy_skips_network_pass :
    (destroy [("com.quorum.quorum-tools.id", "demo")] none
      ⟨[⟨"c1", [("com.quorum.quorum-tools.id", "demo")]⟩],
       [⟨"n1", [("com.quorum.quorum-tools.id", "demo")]⟩],
       [("c1", "rm failed")], []⟩).1 =
      Except.error "destroy: removing containers: 0/1\nrm failed" ∧
    (destroy [("com.quorum.quorum-tools.id", "demo")] none
      ⟨[⟨"c1", [("com.quorum.quorum-tools.id", "demo")]⟩],
       [⟨"n1", [("com.quorum.quorum-tools.id", "demo")]⟩],
       [("c1", "rm failed")], []⟩).2.1.networks =
      [⟨"n1", [("com.quorum.quorum-tools.id", "demo")]⟩] ∧
    DOp.networkList ∉ (destroy [("com.quorum.quorum-tools.id", "demo")] none
      ⟨[⟨"c1", [("com.quorum.quorum-tools.id", "demo")]⟩],
       [⟨"n1", [("com.quorum.quorum-tools.id", "demo")]⟩],
       [("c1", "rm failed")], []⟩).2.2 ∧
    DOp.networkRemove "n1" ∉ (destroy [("com.quorum.quorum-tools.id", "demo")] none
      ⟨[⟨"c1", [("com.quorum.quorum-tools.id", "demo")]⟩],
       [⟨"n1", [("com.quorum.quorum-tools.id", "demo")]⟩],
       [("c1", "rm failed")], []⟩).2.2 := by
  refine ⟨rfl, rfl, by decide, by decide⟩

/-- C7 amended.  `Destroy()` removes the temp directory best-effort (its
outcome never affects the result, and the removal is always attempted
first), then runs the container pass: inside that pass failures are
aggregated and removals that can succeed do succeed even when siblings
fail; but if the container pass has any failure, `Destroy()` returns its
wrapped aggregate error immediately and the network pass never runs.  Only
when every container removal succeeded does the network pass run, and the
returned error then reflects the network pass alone. -/
theorem destroy_pass_structure (want : List (String × String)) (tmpErr : Option String)
    (e : Engine) :
    ((∀ msg, destroy want (some msg) e = destroy want none e) ∧
      (destroy want tmpErr e).2.2.head? = some DOp.tmpDirRemove) ∧
    (removalFailures e.containerRemoveErr (cTargets want e) ≠ [] →
      (destroy want tmpErr e).1 =
        Except.error ("destroy: " ++ mkAggError "removing containers"
          ((cTargets want e).length -
            (removalFailures e.containerRemoveErr (cTargets want e)).length)
          (cTargets want e).length
          (removalFailures e.containerRemoveErr (cTargets want e))) ∧
      DOp.networkList ∉ (destroy want tmpErr e).2.2 ∧
      (destroy want tmpErr e).2.1.networks = e.networks ∧
      (∀ c ∈ cTargets want e, lookupErr e.containerRemoveErr c.id = none →
        ∀ x ∈ (destroy want tmpErr e).2.1.containers, x.id ≠ c.id)) ∧
    (removalFailures e.containerRemoveErr (cTargets want e) = [] →
      DOp.networkList ∈ (destroy want tmpErr e).2.2 ∧
      ((destroy want tmpErr e).1 = Except.ok () ↔
        removalFailures e.networkRemoveErr (nTargets want e) = [])) := by
  have hnTargets : nTargets want (destroyContainerPass want e).2.1 = nTargets want e := by
    unfold nTargets
    rw [(destroyContainerPass_networks want e).1]
  refine ⟨⟨fun msg => rfl, ?_⟩, ?_, ?_⟩
  · cases hcp : (destroyContainerPass want e).1 with
    | error msg => simp [destroy, hcp]
    | ok u =>
      cases u
      cases hnp : (destroyNetworkPass want (destroyContainerPass want e).2.1).1 with
      | error msg => simp [destroy, hcp, hnp]
      | ok u => cases u; simp [destroy, hcp, hnp]
  · intro hne
    have hcp := destroyContainerPass_err want e hne
    have hcontainers : (destroy want tmpErr e).2.1 = (destroyContainerPass want e).2.1 := by
      simp [destroy, hcp]
    refine ⟨by simp [destroy, hcp], ?_, ?_, ?_⟩
    · have htr : (destroy want tmpErr e).2.2 =
          [DOp.tmpDirRemove] ++ (destroyContainerPass want e).2.2 := by
        simp [destroy, hcp]
      rw [htr]
      have h2 : (destroyContainerPass want e).2.2 =
          [DOp.containerList] ++ (cTargets want e).map (fun c => DOp.containerRemove c.id) :=
        rfl
      rw [h2]
      simp
    · rw [hcontainers]
      exact (destroyContainerPass_networks want e).1
    · intro c hc hnone x hx
      rw [hcontainers] at hx
      have hcont : (destroyContainerPass want e).2.1.containers =
          e.containers.filter
            (fun c => decide (c.id ∉ removedIds e.containerRemoveErr (cTargets want e))) := rfl
      rw [hcont, List.mem_filter] at hx
      obtain ⟨-, hdec⟩ := hx
      rw [decide_eq_true_eq] at hdec
      intro heq
      apply hdec
      rw [heq]
      unfold removedIds
      exact List.mem_map.mpr ⟨c, List.mem_filter.mpr ⟨hc, by simp [hnone]⟩, rfl⟩
  · intro hce
    have hcp : (destroyContainerPass want e).1 = Except.ok () :=
      (destroyContainerPass_ok_iff want e).mpr hce
    have hnok : ((destroyNetworkPass want (destroyContainerPass want e).2.1).1 =
        Except.ok () ↔
        removalFailures e.networkRemoveErr (nTargets want e) = []) := by
      rw [destroyNetworkPass_ok_iff, hnTargets,
        (destroyContainerPass_networks want e).2.1]
    constructor
    · cases hnp : (destroyNetworkPass want (destroyContainerPass want e).2.1).1 with
      | error msg =>
        have htr : (destroy want tmpErr e).2.2 =
            [DOp.tmpDirRemove] ++ (destroyContainerPass want e).2.2 ++
              (destroyNetworkPass want (destroyContainerPass want e).2.1).2.2 := by
          simp [destroy, hcp, hnp]
        rw [htr]
        have h2 : (destroyNetworkPass want (destroyContainerPass want e).2.1).2.2 =
            [DOp.networkList] ++ (nTargets want (destroyContainerPass want e).2.1).map
              (fun n => DOp.networkRemove n.id) := rfl
        rw [h2]
        simp
      | ok u =>
        cases u
        have htr : (destroy want tmpErr e).2.2 =
            [DOp.tmpDirRemove] ++ (destroyContainerPass want e).2.2 ++
              (destroyNetworkPass want (destroyContainerPass want e).2.1).2.2 := by
          simp [destroy, hcp, hnp]
        rw [htr]
        have h2 : (destroyNetworkPass want (destroyContainerPass want e).2.1).2.2 =
            [DOp.networkList] ++ (nTargets want (destroyContainerPass want e).2.1).map
              (fun n => DOp.networkRemove n.id) := rfl
        rw [h2]
        simp
    · rw [← hnok]
      cases hnp : (destroyNetworkPass want (destroyContainerPass want e).2.1).1 with
      | error msg => simp [destroy, hcp, hnp]
      | ok u => cases u; simp [destroy, hcp, hnp]

/-- Witness for C7's amended theorem at the counterexample engine: the
container pass fails, so `Destroy()` returns its wrapped aggregate error and
the trace has no network-list operation. -/
theorem destroy_pass_structure_witness :
    (destroy [("com.quorum.quorum-tools.id", "demo")] none
      ⟨[⟨"c1", [("com.quorum.quorum-tools.id", "demo")]⟩],
       [⟨"n1", [("com.quorum.quorum-tools.id", "demo")]⟩],
       [("c1", "rm failed")], []⟩).1 =
      Except.error ("destroy: " ++ mkAggError "removing containers"
        ((cTargets [("com.quorum.quorum-tools.id", "demo")]
          ⟨[⟨"c1", [("com.quorum.quorum-tools.id", "demo")]⟩],
           [⟨"n1", [("com.quorum.quorum-tools.id", "demo")]⟩],
           [("c1", "rm failed")], []⟩).length -
          (removalFailures [("c1", "rm failed")]
            (cTargets [("com.quorum.quorum-tools.id", "demo")]
              ⟨[⟨"c1", [("com.quorum.quorum-tools.id", "demo")]⟩],
               [⟨"n1", [("com.quorum.quorum-tools.id", "demo")]⟩],
               [("c1", "rm failed")], []⟩)).length)
        (cTargets [("com.quorum.quorum-tools.id", "demo")]
          ⟨[⟨"c1", [("com.quorum.quorum-tools.id", "demo")]⟩],
           [⟨"n1", [("com.quorum.quorum-tools.id", "demo")]⟩],
           [("c1", "rm failed")], []⟩).length
        (removalFailures [("c1", "rm failed")]
          (cTargets [("com.quorum.quorum-tools.id", "demo")]
            ⟨[⟨"c1", [("com.quorum.quorum-tools.id", "demo")]⟩],
             [⟨"n1", [("com.quorum.quorum-tools.id", "demo")]⟩],
             [("c1", "rm failed")], []⟩))) ∧
    DOp.networkList ∉ (destroy [("com.quorum.quorum-tools.id", "demo")] none
      ⟨[⟨"c1", [("com.quorum.quorum-tools.id", "demo")]⟩],
       [⟨"n1", [("com.quorum.quorum-tools.id", "demo")]⟩],
       [("c1", "rm failed")], []⟩).2.2 := by
  have h := (destroy_pass_structure [("com.quorum.quorum-tools.id", "demo")] none
    ⟨[⟨"c1", [("com.quorum.quorum-tools.id", "demo")]⟩],
     [⟨"n1", [("com.quorum.quorum-tools.id", "demo")]⟩],
     [("c1", "rm failed")], []⟩).2.1 (by decide)
  exact ⟨h.1, h.2.1⟩

/-! ## Network address leasing (spec-modelled)

The Network component implementing `GetFreeIPAddrs` / `LeaseAddresses` is
not among the provided source files; only its callers (`startTxManagers`,
`startQuorums`) are.  It is therefore modelled from the spec. -/

/-- Modelled from the spec: the Network component's address pool state
(`GetFreeIPAddrs` / `LeaseAddresses` is missing from the sources).  An IPv4
address is its 32-bit numeric value; `pool` is the subnet's candidate host
addresses in increasing order, `gateway` the gateway address, `leased` the
addresses already handed out by this Network instance. -/
structure Network where
  gateway : Nat
  pool : List Nat
  leased : List Nat

/-- Modelled from the spec: the usable addresses — pool members that are
neither the gateway nor previously leased. -/
def availableAddrs (net : Network) : List Nat :=
  net.pool.filter (fun a => decide (a ≠ net.gateway ∧ a ∉ net.leased))

/-- Modelled from the spec: `LeaseAddresses(k)` returns the first k usable
addresses in increasing order and records them as leased; with fewer than k
usable addresses it fails with AddressPoolExhausted and leases nothing. -/
def leaseAddresses (net : Network) (k : Nat) : Except String (List Nat) × Network :=
  let avail := availableAddrs net
  if avail.length < k then (Except.error "AddressPoolExhausted", net)
  else (Except.ok (avail.take k), { net with leased := net.leased ++ avail.take k })

/-- The address list of a lease outcome (empty on failure). -/
def leasedResult : Except String (List Nat) → List Nat
  | Except.ok l => l
  | Except.error _ => []

/-- C9.  On a Network whose pool is strictly increasing: leasing k when at
least k usable addresses remain yields exactly k distinct, strictly
increasing addresses, none equal to the gateway and none previously leased;
leasing k when fewer than k usable addresses remain fails with
AddressPoolExhausted and leaves the Network unchanged; and no address
returned by a lease call is ever returned by the following lease call on
the resulting Network. -/
theorem leaseAddresses_spec (net : Network) (k : Nat)
    (hsorted : List.Pairwise (· < ·) net.pool) :
    (k ≤ (availableAddrs net).length →
      ∃ addrs, (leaseAddresses net k).1 = Except.ok addrs ∧
        addrs.length = k ∧
        List.Pairwise (· < ·) addrs ∧
        addrs.Nodup ∧
        net.gateway ∉ addrs ∧
        (∀ a ∈ addrs, a ∉ net.leased)) ∧
    ((availableAddrs net).length < k →
      (leaseAddresses net k).1 = Except.error "AddressPoolExhausted" ∧
      (leaseAddresses net k).2 = net) ∧
    (∀ k2 a, a ∈ leasedResult (leaseAddresses net k).1 →
      a ∉ leasedResult (leaseAddresses (leaseAddresses net k).2 k2).1) := by
  have hsubpool : List.Sublist (availableAddrs net) net.pool := List.filter_sublist net.pool
  have havailpw : List.Pairwise (· < ·) (availableAddrs net) :=
    List.Pairwise.sublist hsubpool hsorted
  have htakesub : ∀ m : Nat, List.Sublist ((availableAddrs net).take m) (availableAddrs net) :=
    fun m => List.take_sublist m (availableAddrs net)
  have hmem_avail : ∀ a ∈ availableAddrs net, a ≠ net.gateway ∧ a ∉ net.leased := by
    intro a ha
    unfold availableAddrs at ha
    rw [List.mem_filter, decide_eq_true_eq] at ha
    exact ha.2
  refine ⟨?_, ?_, ?_⟩
  · intro hk
    have hnlt : ¬ (availableAddrs net).length < k := by omega
    refine ⟨(availableAddrs net).take k, ?_, ?_, ?_, ?_, ?_, ?_⟩
    · unfold leaseAddresses
      rw [if_neg hnlt]
    · rw [List.length_take]; omega
    · exact List.Pairwise.sublist (htakesub k) havailpw
    · exact (List.Pairwise.sublist (htakesub k) havailpw).imp (fun h => Nat.ne_of_lt h)
    · intro hmem
      have := hmem_avail net.gateway ((htakesub k).subset hmem)
      exact this.1 rfl
    · intro a hmem
      exact (hmem_avail a ((htakesub k).subset hmem)).2
  · intro hlt
    unfold leaseAddresses
    rw [if_pos hlt]
    exact ⟨rfl, rfl⟩
  · intro k2 a ha
    by_cases hlt : (availableAddrs net).length < k
    · unfold leaseAddresses at ha
      rw [if_pos hlt] at ha
      simp [leasedResult] at ha
    · have h1 : (leaseAddresses net k).1 = Except.ok ((availableAddrs net).take k) := by
        unfold leaseAddresses
        rw [if_neg hlt]
      have h2 : (leaseAddresses net k).2 =
          { net with leased := net.leased ++ (availableAddrs net).take k } := by
        unfold leaseAddresses
        rw [if_neg hlt]
      rw [h1] at ha
      simp only [leasedResult] at ha
      rw [h2]
      intro hcontra
      have hleased : a ∈ ({ net with
          leased := net.leased ++ (availableAddrs net).take k } : Network).leased := by
        simp only [List.mem_append]
        exact Or.inr ha
      set net2 : Network :=
        { net with leased := net.leased ++ (availableAddrs net).take k } with hnet2
      have hnot : a ∉ availableAddrs net2 := by
        intro hmem
        unfold availableAddrs at hmem
        rw [List.mem_filter, decide_eq_true_eq] at hmem
        exact hmem.2.2 hleased
      by_cases hlt2 : (availableAddrs net2).length < k2
      · unfold leaseAddresses at hcontra
        rw [if_pos hlt2] at hcontra
        simp [leasedResult] at hcontra
      · unfold leaseAddresses at hcontra
        rw [if_neg hlt2] at hcontra
        simp only [leasedResult] at hcontra
        exact hnot ((List.take_sublist k2 (availableAddrs net2)).subset hcontra)

/-- Witness for C9 at a concrete Network: pool 1..5 with gateway 1, two
addresses requested. -/
theorem leaseAddresses_spec_witness :
    ∃ addrs, (leaseAddresses ⟨1, [1, 2, 3, 4, 5], []⟩ 2).1 = Except.ok addrs ∧
      addrs.length = 2 ∧
      List.Pairwise (· < ·) addrs ∧
      addrs.Nodup ∧
      (1 : Nat) ∉ addrs ∧
      (∀ a ∈ addrs, a ∉ ([] : List Nat)) :=
  (leaseAddresses_spec ⟨1, [1, 2, 3, 4, 5], []⟩ 2 (by decide)).1 (by decide)
